import Mathlib

/-!
Verification development for the Scriptable Google Weather widgets
(current-conditions variant weatherwidget.js and forecast variant
weatherwidget_daily.js).

The scripts are JavaScript; we shallowly embed the data-handling core:
JavaScript numbers are modelled as exact rationals (`Q`, an unnormalized
fraction whose denominator is positive by construction), JSON values as the
inductive `JVal`, and the host file system holding the single cache file as
`FileState`.  JavaScript semantics used by the scripts (truthiness, loose
null checks, string/number coercion, remainder with the sign of the
dividend, Math.round as floor of x + 1/2, short-circuit helpers) are
embedded by the js-prefixed helpers below.  Host rendering objects (Color,
LinearGradient, SFSymbol, ListWidget) are embedded by the data that the
scripts put into them: a gradient by its list of hex color strings, an icon
by its SF Symbol name, the forecast widget by the `WidgetModel` tree of
strings actually displayed.  All definitions are executable and are written
to reduce inside the Lean kernel, so concrete runs are provable by rfl.
-/

namespace GW

/-- Exact rational with unnormalized representation: value n / (dp + 1).
Storing the predecessor of the denominator makes every representable
fraction have a positive denominator, so no well-formedness side condition
is ever needed.  JavaScript numbers (IEEE doubles) are a subset of these. -/
structure Q where
  n : ℤ
  dp : ℕ
  deriving DecidableEq, Repr

/-- Denominator of a `Q`, always positive. -/
def Q.den (q : Q) : ℤ := (q.dp : ℤ) + 1

/-- Embed an integer. -/
def Q.ofInt (z : ℤ) : Q := ⟨z, 0⟩

/-- Build n / d for positive d (callers guarantee 0 < d). -/
def Q.mkPos (n d : ℤ) : Q := ⟨n, d.toNat - 1⟩

def Q.add (x y : Q) : Q := ⟨x.n * y.den + y.n * x.den, (x.dp + 1) * (y.dp + 1) - 1⟩

def Q.sub (x y : Q) : Q := ⟨x.n * y.den - y.n * x.den, (x.dp + 1) * (y.dp + 1) - 1⟩

def Q.mul (x y : Q) : Q := ⟨x.n * y.n, (x.dp + 1) * (y.dp + 1) - 1⟩

/-- Division; the divisor's sign is moved into the numerator so the
denominator stays positive.  Division by zero yields 0 (never used: every
division in the scripts has a nonzero constant divisor). -/
def Q.div (x y : Q) : Q :=
  if y.n < 0 then Q.mkPos (-(x.n * y.den)) (x.den * (-y.n))
  else Q.mkPos (x.n * y.den) (x.den * y.n)

/-- Order on values (cross multiplication; denominators are positive). -/
def Q.le (x y : Q) : Bool := decide (x.n * y.den ≤ y.n * x.den)

def Q.lt (x y : Q) : Bool := decide (x.n * y.den < y.n * x.den)

/-- Floor of the value (the denominator is positive, and Lean's integer
division by a positive integer rounds down). -/
def Q.floor (q : Q) : ℤ := q.n / q.den

/-- Ceiling of the value. -/
def Q.ceil (q : Q) : ℤ := -((-q.n) / q.den)

/-- Truncation toward zero, as JavaScript's implicit quotient in `%`. -/
def Q.trunc (q : Q) : ℤ := if q.n < 0 then q.ceil else q.floor

/-- Math.round(x) = floor(x + 1/2) for finite x (JavaScript rounds half up). -/
def jsRound (q : Q) : ℤ := (q.add ⟨1, 1⟩).floor

/-- JavaScript's remainder a % b for numbers: a - b * trunc(a / b). -/
def jsRem (a b : Q) : Q := a.sub (b.mul (Q.ofInt ((a.div b).trunc)))

/-- JavaScript's integer remainder for an integer dividend and positive
divisor: the result carries the sign of the dividend. -/
def jsRemInt (a b : ℤ) : ℤ := if 0 ≤ a then a % b else -((-a) % b)

/-! String helpers, implemented over the character list so that they reduce
in the kernel. -/

def lowerPairs : List (Char × Char) :=
  [('A','a'),('B','b'),('C','c'),('D','d'),('E','e'),('F','f'),('G','g'),
   ('H','h'),('I','i'),('J','j'),('K','k'),('L','l'),('M','m'),('N','n'),
   ('O','o'),('P','p'),('Q','q'),('R','r'),('S','s'),('T','t'),('U','u'),
   ('V','v'),('W','w'),('X','x'),('Y','y'),('Z','z')]

def assocChar : List (Char × Char) → Char → Char
  | [], c => c
  | (a, b) :: rest, c => if c = a then b else assocChar rest c

/-- String.prototype.toLowerCase restricted to ASCII (the only characters
the scripts compare against). -/
def strLower (s : String) : String := ⟨s.data.map (assocChar lowerPairs)⟩

/-- String.prototype.toUpperCase restricted to ASCII. -/
def strUpper (s : String) : String :=
  ⟨s.data.map (assocChar (lowerPairs.map (fun p => (p.2, p.1))))⟩

/-- Whether the second list occurs as a leading segment of the first. -/
def leadsList : List Char → List Char → Bool
  | _, [] => true
  | [], _ :: _ => false
  | x :: xs, y :: ys => x = y && leadsList xs ys

def containsList (hay sub : List Char) : Bool :=
  match hay with
  | [] => leadsList [] sub
  | _ :: rest => leadsList hay sub || containsList rest sub

/-- String.prototype.includes. -/
def strContains (s sub : String) : Bool := containsList s.data sub.data

/-- List-level split on a separator character. -/
def splitListOn (c : Char) : List Char → List (List Char)
  | [] => [[]]
  | x :: xs =>
    match splitListOn c xs with
    | [] => [[x]]
    | y :: ys => if x = c then [] :: y :: ys else (x :: y) :: ys

/-- String.prototype.split(".") as used by the safe getter. -/
def jsSplitDot (s : String) : List String := (splitListOn '.' s.data).map String.mk

def isWsChar (c : Char) : Bool := c = ' ' || c = '\t' || c = '\n' || c = '\r'

def trimChars (l : List Char) : List Char :=
  ((l.dropWhile isWsChar).reverse.dropWhile isWsChar).reverse

def digitVal (c : Char) : Option ℕ :=
  if '0' ≤ c ∧ c ≤ '9' then some (c.toNat - 48) else none

def parseNatDigits : List Char → ℕ → Option ℕ
  | [], acc => some acc
  | c :: cs, acc =>
    match digitVal c with
    | some d => parseNatDigits cs (acc * 10 + d)
    | none => none

/-- Parse an unsigned decimal literal (digits with at most one point) into a
rational; none on any other shape (Number(...) of such strings is NaN). -/
def parseDecimal (l : List Char) : Option Q :=
  match splitListOn '.' l with
  | [intPart] =>
    if intPart.isEmpty then none
    else (parseNatDigits intPart 0).map (fun m => Q.ofInt m)
  | [intPart, fracPart] =>
    if intPart.isEmpty && fracPart.isEmpty then none
    else
      match parseNatDigits intPart 0, parseNatDigits fracPart 0 with
      | some i, some f => some ⟨(i : ℤ) * (10 ^ fracPart.length : ℕ) + f, 10 ^ fracPart.length - 1⟩
      | _, _ => none
  | _ => none

/-- Number(string) coercion: trimmed empty string is 0, signed decimal
literals parse exactly, anything else is NaN (none).  Exotic literal forms
(hex, exponents, Infinity) are outside the model and map to NaN. -/
def jsStrToNum (s : String) : Option Q :=
  match trimChars s.data with
  | [] => some (Q.ofInt 0)
  | '-' :: rest => (parseDecimal rest).map (fun q => ⟨-q.n, q.dp⟩)
  | '+' :: rest => parseDecimal rest
  | l => parseDecimal l

/-! The JSON value model.  JavaScript's undefined and null are conflated
into `JVal.null`: the scripts only ever observe them through truthiness,
loose `== null` checks and `??`, which treat the two identically.  NaN is a
separate constructor since it is a number value that is neither truthy nor
equal to null. -/

inductive JVal where
  | null : JVal
  | bool : Bool → JVal
  | num : Q → JVal
  | nan : JVal
  | str : String → JVal
  | arr : List JVal → JVal
  | obj : List (String × JVal) → JVal

/-- JavaScript truthiness. -/
def truthy : JVal → Bool
  | .null => false
  | .bool b => b
  | .num q => q.n ≠ 0
  | .nan => false
  | .str s => s ≠ ""
  | .arr _ => true
  | .obj _ => true

def lookupField : List (String × JVal) → String → Option JVal
  | [], _ => none
  | (k, v) :: rest, key => if k = key then some v else lookupField rest key

/-- Canonical numeric string (array index), as property keys on arrays. -/
def natKey (k : String) : Option ℕ :=
  match parseNatDigits k.data 0 with
  | some m => if k.data.isEmpty then none else if toString m = k then some m else none
  | none => none

/-- Own-property lookup o[k]: object fields by name, array elements by
canonical index; none means the access yields undefined. -/
def getKey : JVal → String → Option JVal
  | .obj fs, k => lookupField fs k
  | .arr xs, k => (natKey k).bind (fun m => xs[m]?)
  | _, _ => none

/-- Property access o[k] on a non-nullish receiver, undefined read as null. -/
def getProp (v : JVal) (k : String) : JVal := (getKey v k).getD .null

/-- Property access that can throw: reading a property of null (or
undefined) raises a TypeError, expressed as the error case. -/
def jsGetProp (v : JVal) (k : String) : Except Unit JVal :=
  match v with
  | .null => .error ()
  | _ => .ok (getProp v k)

def isNullJ : JVal → Bool
  | .null => true
  | _ => false

/-- Strict equality of a value against a string literal. -/
def eqStrJ (v : JVal) (s : String) : Bool :=
  match v with
  | .str t => t = s
  | _ => false

/-- One step of the safe getter's reduce: (o, k) => (o && o[k] !== undefined ? o[k] : null). -/
def gStep (o : JVal) (k : String) : JVal :=
  if truthy o then
    match getKey o k with
    | some v => v
    | none => .null
  else .null

/-- Safe getter g(obj, path, fallback = null): split the dotted path, chase
it with the truthiness-guarded reduce, and apply ?? fallback at the end. -/
def g (obj : JVal) (path : String) (fallback : JVal := .null) : JVal :=
  let r := (jsSplitDot path).foldl gStep obj
  if isNullJ r then fallback else r

/-- Number(v) coercion; none is NaN.  Arrays coerce through their string
form: empty array to 0, singleton to its element's coercion, longer arrays
to NaN (the joined string contains a comma). -/
def jsToNumElem : JVal → Option Q
  | .null => some (Q.ofInt 0)
  | .num q => some q
  | .str s => jsStrToNum s
  | _ => none

def jsToNum : JVal → Option Q
  | .null => some (Q.ofInt 0)
  | .bool b => some (Q.ofInt (if b then 1 else 0))
  | .num q => some q
  | .nan => none
  | .str s => jsStrToNum s
  | .arr [] => some (Q.ofInt 0)
  | .arr [x] => jsToNumElem x
  | .arr _ => none
  | .obj _ => none

/-- Decimal rendering of a rational whose value has a finite decimal
expansion of at most the fuel many digits (every JavaScript number the
scripts print does); used for template-literal interpolation. -/
def decDigits : ℕ → ℕ → ℤ → List Char
  | 0, _, _ => []
  | _ + 1, _, 0 => []
  | fuel + 1, d, r =>
    let r10 := r * 10
    let digit := r10 / (d : ℤ)
    (Char.ofNat (digit.toNat + 48)) :: decDigits fuel d (r10 % (d : ℤ))

def qToString (q : Q) : String :=
  let a := q.n.natAbs
  let d := q.dp + 1
  let ip := (a / d : ℕ)
  let r := (a : ℤ) - (ip : ℤ) * (d : ℤ)
  let sign := if q.n < 0 then "-" else ""
  let frac := decDigits 25 d r
  sign ++ toString ip ++ (if frac.isEmpty then "" else "." ++ ⟨frac⟩)

/-- String(v) coercion, one level deep for arrays (nested arrays are
approximated by the empty string, never exercised by the scripts). -/
def jsToStringScalar : JVal → String
  | .null => ""
  | .bool b => if b then "true" else "false"
  | .num q => qToString q
  | .nan => "NaN"
  | .str s => s
  | .arr _ => ""
  | .obj _ => "[object Object]"

def jsToString : JVal → String
  | .null => "null"
  | .bool b => if b then "true" else "false"
  | .num q => qToString q
  | .nan => "NaN"
  | .str s => s
  | .arr xs => String.intercalate "," (xs.map jsToStringScalar)
  | .obj _ => "[object Object]"

/-! Cache gate.  The cache file is modelled by what JSON.parse would make of
its content: missing file, unparsable content, or a parsed JSON value.
writeCache's JSON.stringify of a { timestamp, data } record followed by
JSON.parse is the identity on JSON-serializable trees, so the persisted
record is modelled as the parsed object directly. -/

inductive FileState where
  | missing : FileState
  | invalid : FileState
  | parsed : JVal → FileState

/-- Cache TTL of the current-conditions variant (CACHE_MIN = 5). -/
def CACHE_MIN_current : GW.Q := Q.ofInt 5

/-- Cache TTL of the forecast variant (CACHE_MIN = 20). -/
def CACHE_MIN_daily : GW.Q := Q.ofInt 20

/-- readCache of both variants, parameterized by the variant's CACHE_MIN
and by Date.now().  Returns null for a missing file; the try/catch turns a
parse error or a property access on a null root into null; a falsy
timestamp yields null; then the record expires when ageMin > CACHE_MIN
(note a truthy non-numeric timestamp gives ageMin = NaN, and NaN > CACHE_MIN
is false); otherwise the stored data field is returned. -/
def readCache (cacheMin : Q) (file : FileState) (now : Q) : JVal :=
  match file with
  | .missing => .null
  | .invalid => .null
  | .parsed root =>
    match jsGetProp root "timestamp" with
    | .error _ => .null
    | .ok ts =>
      if ¬ truthy ts then .null
      else
        match jsToNum ts with
        | none => getProp root "data"
        | some t =>
          if Q.lt cacheMin ((now.sub t).div (Q.ofInt 60000)) then .null
          else getProp root "data"

def readCacheCurrent (file : FileState) (now : Q) : JVal :=
  readCache CACHE_MIN_current file now

def readCacheDaily (file : FileState) (now : Q) : JVal :=
  readCache CACHE_MIN_daily file now

/-- writeCache(data): overwrite the record file with
JSON.stringify({ timestamp: Date.now(), data }).  This is the resulting
file state when the write succeeds (a write failure is swallowed by the
script and leaves the previous state). -/
def writeCache (data : JVal) (now : Q) : FileState :=
  .parsed (.obj [("timestamp", .num now), ("data", data)])

/-- Outcome of the awaited fetchWeather / fetchForecast call: parsed JSON on
success, or a thrown network/timeout/HTTP error. -/
inductive FetchOutcome where
  | ok : JVal → FetchOutcome
  | err : String → FetchOutcome

/-- The fetch/cache decision of both main scripts: read the cache, attempt
the fresh fetch; on success adopt the fresh response and overwrite the
cache; on failure rethrow the network error when the cached data is falsy,
else keep the cached data and leave the file untouched.  Returns the
adopted data together with the resulting cache file state, or the
propagated error. -/
def mainAdopt (cacheMin : Q) (file : FileState) (tRead tWrite : Q)
    (fetch : FetchOutcome) : Except String (JVal × FileState) :=
  let data := readCache cacheMin file tRead
  match fetch with
  | .ok fresh => .ok (fresh, writeCache fresh tWrite)
  | .err e => if ¬ truthy data then .error e else .ok (data, file)

def mainAdoptCurrent (file : FileState) (tRead tWrite : Q) (fetch : FetchOutcome) :
    Except String (JVal × FileState) :=
  mainAdopt CACHE_MIN_current file tRead tWrite fetch

def mainAdoptDaily (file : FileState) (tRead tWrite : Q) (fetch : FetchOutcome) :
    Except String (JVal × FileState) :=
  mainAdopt CACHE_MIN_daily file tRead tWrite fetch

/-! Condition normalization and icon selection. -/

/-- normalizeConditionText (identical in both scripts): falsy input is
null; a string is returned as is; a string description, then a description
object with a string text, then a string type are tried in order. -/
def normalizeConditionText (weatherCondition : JVal) : Option String :=
  if ¬ truthy weatherCondition then none
  else
    match weatherCondition with
    | .str s => some s
    | _ =>
      let desc := getProp weatherCondition "description"
      match desc with
      | .str s => some s
      | _ =>
        match (if truthy desc then getProp desc "text" else .null) with
        | .str t => some t
        | _ =>
          match getProp weatherCondition "type" with
          | .str ty => some ty
          | _ => none

/-- getConditionType (forecast variant): empty string for a falsy condition
or falsy type field, else String(type).toUpperCase(). -/
def getConditionType (weatherCondition : JVal) : String :=
  if ¬ truthy weatherCondition then ""
  else
    let ty := getProp weatherCondition "type"
    if ¬ truthy ty then "" else strUpper (jsToString ty)

/-- Icon chosen by the current-conditions variant's pickSymbol: lowercase
the normalized text and take the first matching substring rule; the final
fallback is the clear-sky icon in its day or night variant. -/
def pickSymbolCurrent (weatherCondition isDaytime : JVal) : String :=
  let t := strLower ((normalizeConditionText weatherCondition).getD "")
  let day := truthy isDaytime
  if strContains t "thunder" || strContains t "storm" then "cloud.bolt.rain.fill"
  else if strContains t "snow" || strContains t "sleet" then "cloud.snow.fill"
  else if strContains t "rain" || strContains t "drizzle" then "cloud.rain.fill"
  else if strContains t "fog" || strContains t "mist" || strContains t "haze" then "cloud.fog.fill"
  else if strContains t "overcast" then "smoke.fill"
  else if strContains t "cloud" then (if day then "cloud.sun.fill" else "cloud.moon.fill")
  else if strContains t "clear" || strContains t "sunny" then (if day then "sun.max.fill" else "moon.stars.fill")
  else if day then "sun.max.fill" else "moon.stars.fill"

/-- Icon chosen by the forecast variant's pickSymbol: the uppercased type
runs through the typed substring rules first; when none matches the
lowercased description text runs through the text rules; then the clear-sky
fallback. -/
def pickSymbolDaily (weatherCondition isDaytime : JVal) : String :=
  let t := strUpper (getConditionType weatherCondition)
  let day := truthy isDaytime
  if strContains t "THUNDER" || strContains t "STORM" then "cloud.bolt.rain.fill"
  else if strContains t "SNOW" then "cloud.snow.fill"
  else if strContains t "RAIN" then "cloud.rain.fill"
  else if strContains t "SHOWERS" then "cloud.rain.fill"
  else if strContains t "FOG" then "cloud.fog.fill"
  else if strContains t "HAZE" || strContains t "MIST" then "cloud.fog.fill"
  else if strContains t "OVERCAST" then "smoke.fill"
  else if strContains t "MOSTLY_CLOUDY" || strContains t "CLOUDY" then (if day then "cloud.sun.fill" else "cloud.moon.fill")
  else if strContains t "PARTLY_CLOUDY" then (if day then "cloud.sun.fill" else "cloud.moon.fill")
  else if strContains t "CLEAR" || strContains t "SUNNY" then (if day then "sun.max.fill" else "moon.stars.fill")
  else
    let desc := strLower ((normalizeConditionText weatherCondition).getD "")
    if strContains desc "storm" || strContains desc "thunder" then "cloud.bolt.rain.fill"
    else if strContains desc "snow" then "cloud.snow.fill"
    else if strContains desc "rain" then "cloud.rain.fill"
    else if strContains desc "fog" || strContains desc "mist" || strContains desc "haze" then "cloud.fog.fill"
    else if strContains desc "cloud" then (if day then "cloud.sun.fill" else "cloud.moon.fill")
    else if strContains desc "clear" || strContains desc "sunny" then (if day then "sun.max.fill" else "moon.stars.fill")
    else if day then "sun.max.fill" else "moon.stars.fill"

/-! Unit formatting. -/

/-- Interpolation of Math.round(v) into a template literal: the rounded
number, or the string NaN when the coercion of v is NaN. -/
def roundedStr (v : JVal) : String :=
  match jsToNum v with
  | some q => toString (jsRound q)
  | none => "NaN"

/-- fmtTemp: em-dash for an absent degrees value, else the rounded number
with the degree-Fahrenheit sign exactly when unit is FAHRENHEIT. -/
def fmtTemp (tempObj : JVal) : String :=
  let val := g tempObj "degrees"
  let unit := g tempObj "unit"
  if isNullJ val then "—"
  else roundedStr val ++ (if eqStrJ unit "FAHRENHEIT" then "°F" else "°C")

/-- fmtTempCompact (forecast variant): like fmtTemp but with a bare degree
sign and no letter. -/
def fmtTempCompact (tempObj : JVal) : String :=
  let val := g tempObj "degrees"
  if isNullJ val then "—" else roundedStr val ++ "°"

/-- parseTempC: null for absent degrees, else the Celsius-converted rounded
value (Math.round((v - 32) * 5 / 9) for FAHRENHEIT, Math.round(v)
otherwise); a non-numeric degrees value propagates as NaN. -/
def parseTempC (tempObj : JVal) : JVal :=
  let val := g tempObj "degrees"
  let unit := g tempObj "unit"
  if isNullJ val then .null
  else
    match jsToNum val with
    | none => .nan
    | some q =>
      if eqStrJ unit "FAHRENHEIT" then
        .num (Q.ofInt (jsRound (((q.sub (Q.ofInt 32)).mul (Q.ofInt 5)).div (Q.ofInt 9))))
      else .num (Q.ofInt (jsRound q))

def dirs16 : List String :=
  ["N","NNE","NE","ENE","E","ESE","SE","SSE","S","SSW","SW","WSW","W","WNW","NW","NNW"]

/-- degToDir: empty for a nullish or NaN argument, else
dirs[Math.round((deg % 360) / 22.5) % 16] with JavaScript's sign-preserving
remainders; a negative index reads undefined from the array, which the
caller's truthiness test treats like the empty string. -/
def degToDir (deg : JVal) : String :=
  if isNullJ deg then ""
  else
    match jsToNum deg with
    | none => ""
    | some d =>
      let i := jsRemInt (jsRound ((jsRem d (Q.ofInt 360)).div ⟨45, 1⟩)) 16
      if i < 0 then "" else (dirs16[i.toNat]?).getD ""

/-- fmtWind: unit symbol from speed.unit (mph, m/s, else km/h), em-dash for
an absent speed.value, else the rounded speed, the symbol, and the compass
suffix when degToDir gives a truthy string. -/
def fmtWind (windObj : JVal) : String :=
  let spdVal := g windObj "speed.value"
  let spdUnit := g windObj "speed.unit"
  let sym := if eqStrJ spdUnit "MILE_PER_HOUR" then "mph"
    else if eqStrJ spdUnit "METER_PER_SECOND" then "m/s"
    else "km/h"
  if isNullJ spdVal then "—"
  else
    let dirTxt := degToDir (g windObj "direction.degrees")
    roundedStr spdVal ++ " " ++ sym ++ (if dirTxt ≠ "" then " " ++ dirTxt else "")

/-! Background gradients, embedded as the list of hex color strings put
into the LinearGradient. -/

def coldColors : List String := ["#1e3c72", "#2a5298"]

def mildColors : List String := ["#396afc", "#2948ff"]

def hotColors : List String := ["#ff512f", "#dd2476"]

def nightColors : List String := ["#0f2027", "#203a43"]

/-- Numeric >= comparison against a constant, with JavaScript coercion of
the left operand; false when the coercion is NaN. -/
def jsGE (v : JVal) (c : ℤ) : Bool :=
  match jsToNum v with
  | some q => Q.le (Q.ofInt c) q
  | none => false

/-- gradientFor of the current-conditions variant: thresholds on the
Celsius value pick hot, mild or cold (cold also for null), and a falsy
isDay replaces the choice with the fixed night scheme. -/
def gradientForCurrent (tempC : JVal) (isDay : Bool) : List String :=
  let colors :=
    if ¬ isNullJ tempC then
      if jsGE tempC 24 then hotColors
      else if jsGE tempC 10 then mildColors
      else coldColors
    else coldColors
  if ¬ isDay then nightColors else colors

/-- gradientFor of the forecast variant: same thresholds, no night
override. -/
def gradientForDaily (tempC : JVal) : List String :=
  if ¬ isNullJ tempC then
    if jsGE tempC 24 then hotColors
    else if jsGE tempC 10 then mildColors
    else coldColors
  else coldColors

/-! Forecast widget construction, embedded as the tree of displayed data.
Locale-dependent host formatting (toLocaleDateString short weekday) is an
external collaborator and enters as a function argument. -/

/-- DAYS constant of the forecast variant. -/
def DAYS : ℕ := 6

/-- Short-circuit a || b. -/
def jsOr (a b : JVal) : JVal := if truthy a then a else b

/-- One entry of the daily mini-row: weekday label, icon name, and the
compact max/min temperature text. -/
structure DayCell where
  weekday : String
  symbol : String
  tempsText : String

/-- The data of the fully rendered forecast widget. -/
structure ForecastModel where
  background : List String
  todaySymbol : String
  bigTemp : String
  feelsText : String
  humText : String
  windText : String
  days : List DayCell

/-- A forecast widget either shows the No-forecast-data placeholder or the
full layout. -/
inductive WidgetModel where
  | noData : WidgetModel
  | content : ForecastModel → WidgetModel

/-- One day of the mini-row, from its index and per-day record. -/
def dayCellOf (localeWeekday : JVal → JVal → JVal → String) (i : ℕ) (d : JVal) : DayCell :=
  let dd := g d "displayDate"
  let wd0 :=
    if truthy dd && truthy (getProp dd "year") && truthy (getProp dd "month")
        && truthy (getProp dd "day") then
      localeWeekday (getProp dd "year") (getProp dd "month") (getProp dd "day")
    else ""
  let weekday := if wd0 = "" then (if i = 0 then "Today" else "+" ++ toString i) else wd0
  let dCond := jsOr (g (g d "daytimeForecast") "weatherCondition")
    (g (g d "nighttimeForecast") "weatherCondition")
  { weekday := weekday
    symbol := pickSymbolDaily dCond (.bool true)
    tempsText := fmtTempCompact (g d "maxTemperature") ++ " / " ++ fmtTempCompact (g d "minTemperature") }

/-- buildWidget of the forecast variant: an absent, non-array or empty
forecastDays short-circuits to the placeholder before any per-day field is
read; otherwise today's record feeds the overview and the first
min(DAYS, length) records feed the mini-row. -/
def buildWidgetDaily (localeWeekday : JVal → JVal → JVal → String) (forecast : JVal) :
    WidgetModel :=
  let daysArr := g forecast "forecastDays" (.arr [])
  match daysArr with
  | .arr xs =>
    if xs.length = 0 then .noData
    else
      let today := (xs[0]?).getD .null
      let maxTempObj := g today "maxTemperature"
      let dayPart := g today "daytimeForecast"
      let nightPart := g today "nighttimeForecast"
      let dayCond := g dayPart "weatherCondition"
      let nightCond := g nightPart "weatherCondition"
      let dayHum := g dayPart "relativeHumidity"
      .content
        { background := gradientForDaily (parseTempC maxTempObj)
          todaySymbol := pickSymbolDaily (jsOr dayCond nightCond) (.bool true)
          bigTemp := fmtTemp maxTempObj
          feelsText := fmtTemp (g today "feelsLikeMaxTemperature") ++ "/"
            ++ fmtTemp (g today "feelsLikeMinTemperature")
          humText := if ¬ isNullJ dayHum then jsToString dayHum ++ "%" else "—"
          windText := fmtWind (g dayPart "wind")
          days := (List.range (min DAYS xs.length)).map
            (fun i => dayCellOf localeWeekday i ((xs[i]?).getD .null)) }
  | _ => .noData

/-! Definitions written from the specification's words, for the refinement
claims that compare the stated rule with the implemented one. -/

/-- Floor-convention modulus on rationals, the usual mathematical reading
of deg mod 360. -/
def mathModQ (a b : Q) : Q := a.sub (b.mul (Q.ofInt ((a.div b).floor)))

/-- Compass label stated by the specification: the 16-direction list
indexed by round((deg mod 360) / 22.5) mod 16, with mod read
mathematically (result in [0, 16)). -/
def specCompassLabel (d : Q) : String :=
  ((dirs16[((jsRound ((mathModQ d (Q.ofInt 360)).div ⟨45, 1⟩)) % 16).toNat]?).getD "")

/-- The typed-path rule list of the forecast pickSymbol alone, as an
ordered match returning none when no rule fires. -/
def typedSymbol (t : String) (day : Bool) : Option String :=
  if strContains t "THUNDER" || strContains t "STORM" then some "cloud.bolt.rain.fill"
  else if strContains t "SNOW" then some "cloud.snow.fill"
  else if strContains t "RAIN" then some "cloud.rain.fill"
  else if strContains t "SHOWERS" then some "cloud.rain.fill"
  else if strContains t "FOG" then some "cloud.fog.fill"
  else if strContains t "HAZE" || strContains t "MIST" then some "cloud.fog.fill"
  else if strContains t "OVERCAST" then some "smoke.fill"
  else if strContains t "MOSTLY_CLOUDY" || strContains t "CLOUDY" then
    some (if day then "cloud.sun.fill" else "cloud.moon.fill")
  else if strContains t "PARTLY_CLOUDY" then
    some (if day then "cloud.sun.fill" else "cloud.moon.fill")
  else if strContains t "CLEAR" || strContains t "SUNNY" then
    some (if day then "sun.max.fill" else "moon.stars.fill")
  else none

/-- The text-path rule list of the forecast pickSymbol alone. -/
def textSymbolDaily (desc : String) (day : Bool) : Option String :=
  if strContains desc "storm" || strContains desc "thunder" then some "cloud.bolt.rain.fill"
  else if strContains desc "snow" then some "cloud.snow.fill"
  else if strContains desc "rain" then some "cloud.rain.fill"
  else if strContains desc "fog" || strContains desc "mist" || strContains desc "haze" then
    some "cloud.fog.fill"
  else if strContains desc "cloud" then some (if day then "cloud.sun.fill" else "cloud.moon.fill")
  else if strContains desc "clear" || strContains desc "sunny" then
    some (if day then "sun.max.fill" else "moon.stars.fill")
  else none

/-- Icon selection as the specification states it for the forecast variant:
when the condition carries a type, the typed rules decide alone (with the
clear-sky default); the text rules are consulted only when the type field
is absent. -/
def specPickSymbolTypedOnly (weatherCondition isDaytime : JVal) : String :=
  let ty := getConditionType weatherCondition
  let day := truthy isDaytime
  if ty ≠ "" then
    match typedSymbol (strUpper ty) day with
    | some s => s
    | none => if day then "sun.max.fill" else "moon.stars.fill"
  else
    match textSymbolDaily (strLower ((normalizeConditionText weatherCondition).getD "")) day with
    | some s => s
    | none => if day then "sun.max.fill" else "moon.stars.fill"

/-- Resolution of a dotted path used to state the safe-getter claim: the
value at the path when every key along it exists and every value read,
intermediate or final, is non-null. -/
def resolvePath : JVal → List String → Option JVal
  | v, [] => some v
  | v, k :: ks =>
    match getKey v k with
    | some w => if isNullJ w then none else resolvePath w ks
    | none => none

/-- The substring needles of the current-conditions text rules. -/
def currentTextNeedles : List String :=
  ["thunder", "storm", "snow", "sleet", "rain", "drizzle", "fog", "mist",
   "haze", "overcast", "cloud", "clear", "sunny"]

/-- The substring needles of the forecast typed rules. -/
def dailyTypedNeedles : List String :=
  ["THUNDER", "STORM", "SNOW", "RAIN", "SHOWERS", "FOG", "HAZE", "MIST",
   "OVERCAST", "MOSTLY_CLOUDY", "CLOUDY", "PARTLY_CLOUDY", "CLEAR", "SUNNY"]

/-- The substring needles of the forecast text rules. -/
def dailyTextNeedles : List String :=
  ["storm", "thunder", "snow", "rain", "fog", "mist", "haze", "cloud", "clear", "sunny"]

/-- A wind JSON object with the given speed value, speed unit and direction
degrees, as the API delivers it. -/
def windJ (v u d : JVal) : JVal :=
  .obj [("speed", .obj [("value", v), ("unit", u)]), ("direction", .obj [("degrees", d)])]

/-- A temperature JSON object. -/
def tempJ (v u : JVal) : JVal := .obj [("degrees", v), ("unit", u)]

/-- Whether a value is a JSON-serializable tree: no NaN anywhere (NaN
survives no JSON round trip: it stringifies to null) and no duplicate
object keys (a real JavaScript object cannot carry two fields of the same
name). -/
def jsonSerializable : JVal → Bool
  | .null => true
  | .bool _ => true
  | .num _ => true
  | .nan => false
  | .str _ => true
  | .arr xs => xs.attach.all (fun v => jsonSerializable v.1)
  | .obj fs => decide ((fs.map Prod.fst).Nodup)
      && fs.attach.all (fun p => jsonSerializable p.1.2)
decreasing_by
  · simp only [JVal.arr.sizeOf_spec]
    have := List.sizeOf_lt_of_mem v.2
    omega
  · simp only [JVal.obj.sizeOf_spec]
    have h1 := List.sizeOf_lt_of_mem p.2
    have h2 : sizeOf p.1 = 1 + sizeOf p.1.1 + sizeOf p.1.2 := by
      rcases p with ⟨⟨a, b⟩, hp⟩
      simp
    omega

/-- A value is a string exactly when the str constructor built it. -/
def isStrJ : JVal → Bool
  | .str _ => true
  | _ => false

/-- The code's probe for a text field inside a description object:
desc && desc.text, with a falsy description probing nothing. -/
def descTextProbe (desc : JVal) : JVal :=
  if truthy desc then getProp desc "text" else .null

/-- The wind unit symbol chosen from the raw speed.unit value. -/
def windUnitSym (u : JVal) : String :=
  if eqStrJ u "MILE_PER_HOUR" then "mph"
  else if eqStrJ u "METER_PER_SECOND" then "m/s"
  else "km/h"

/-- The compass suffix appended after the wind speed: a space plus the
label when the label is a truthy string, nothing otherwise. -/
def dirSuffix (s : String) : String := if s ≠ "" then " " ++ s else ""

/-! Supporting lemmas. -/

theorem getKey_truthy {v : JVal} {k : String} {w : JVal}
    (h : getKey v k = some w) : truthy v = true := by
  cases v <;> simp [getKey] at h ⊢ <;> rfl

theorem gStep_null (k : String) : gStep .null k = .null := rfl

theorem foldl_gStep_null (ks : List String) : ks.foldl gStep .null = .null := by
  induction ks with
  | nil => rfl
  | cons k ks ih => simpa [gStep, truthy] using ih

theorem resolvePath_cons {v : JVal} {k : String} {ks : List String} :
    resolvePath v (k :: ks) =
      match getKey v k with
      | some w => if isNullJ w = true then none else resolvePath w ks
      | none => none := rfl

theorem resolvePath_some_foldl {ks : List String} {v w : JVal}
    (h : resolvePath v ks = some w) : ks.foldl gStep v = w := by
  induction ks generalizing v with
  | nil => simpa [resolvePath] using h
  | cons k ks ih =>
    rw [resolvePath_cons] at h
    rcases hk : getKey v k with _ | u <;> rw [hk] at h <;> dsimp only at h
    · exact absurd h (by simp)
    · by_cases hu : isNullJ u = true
      · rw [if_pos hu] at h; exact absurd h (by simp)
      · rw [if_neg hu] at h
        have hg : gStep v k = u := by
          simp [gStep, getKey_truthy hk, hk]
        simpa [hg] using ih h

theorem resolvePath_cons_not_null {k : String} {ks : List String} {v w : JVal}
    (h : resolvePath v (k :: ks) = some w) : isNullJ w = false := by
  induction ks generalizing v k with
  | nil =>
    rw [resolvePath_cons] at h
    rcases hk : getKey v k with _ | u <;> rw [hk] at h <;> dsimp only at h
    · exact absurd h (by simp)
    · by_cases hu : isNullJ u = true
      · rw [if_pos hu] at h; exact absurd h (by simp)
      · rw [if_neg hu] at h
        simp only [resolvePath, Option.some.injEq] at h
        simpa [← h] using hu
  | cons k2 ks ih =>
    rw [resolvePath_cons] at h
    rcases hk : getKey v k with _ | u <;> rw [hk] at h <;> dsimp only at h
    · exact absurd h (by simp)
    · by_cases hu : isNullJ u = true
      · rw [if_pos hu] at h; exact absurd h (by simp)
      · rw [if_neg hu] at h
        exact ih (v := u) (k := k2) h

theorem resolvePath_none_foldl {ks : List String} {v : JVal}
    (h : resolvePath v ks = none) : ks.foldl gStep v = .null := by
  induction ks generalizing v with
  | nil => simp [resolvePath] at h
  | cons k ks ih =>
    rw [resolvePath_cons] at h
    rcases hk : getKey v k with _ | u <;> rw [hk] at h <;> dsimp only at h
    · have hg : gStep v k = .null := by
        by_cases ht : truthy v = true <;> simp [gStep, ht, hk]
      simp only [List.foldl_cons, hg, foldl_gStep_null]
    · have hg : gStep v k = u := by
        simp [gStep, getKey_truthy hk, hk]
      by_cases hu : isNullJ u = true
      · have hu2 : u = .null := by cases u <;> simp [isNullJ] at hu ⊢
        simp only [List.foldl_cons, hg, hu2, foldl_gStep_null]
      · rw [if_neg hu] at h
        simpa [hg] using ih h

theorem splitListOn_ne_nil (c : Char) (l : List Char) : splitListOn c l ≠ [] := by
  induction l with
  | nil => simp [splitListOn]
  | cons x xs ih =>
    simp only [splitListOn]
    rcases h : splitListOn c xs with _ | ⟨y, ys⟩
    · simp
    · by_cases hc : x = c <;> simp [hc]

theorem jsSplitDot_ne_nil (s : String) : jsSplitDot s ≠ [] := by
  simpa [jsSplitDot] using splitListOn_ne_nil '.' s.data

/-- C1 counterexample: a fresh, unexpired, well-formed cache record whose
stored data field is the falsy number 0.  readCache returns that cached
value (second conjunct: a cache value was read), yet on a failed fetch the
script's if (!data) throw netErr test sees a falsy value and propagates the
network error (third conjunct), refuting the claim that a read cache value
always suppresses the error; the daily variant behaves the same with an
empty-string datum (last conjunct). -/
theorem C1_fetch_cache_counterexample :
    readCacheCurrent (writeCache (.num ⟨0, 0⟩) (Q.ofInt 60000)) (Q.ofInt 120000)
      = .num ⟨0, 0⟩ ∧
    (JVal.num ⟨0, 0⟩ ≠ JVal.null) ∧
    mainAdoptCurrent (writeCache (.num ⟨0, 0⟩) (Q.ofInt 60000)) (Q.ofInt 120000)
      (Q.ofInt 120000) (.err "HTTP 500") = .error "HTTP 500" ∧
    mainAdoptDaily (writeCache (.str "") (Q.ofInt 60000)) (Q.ofInt 120000)
      (Q.ofInt 120000) (.err "HTTP 500") = .error "HTTP 500" :=
  ⟨rfl, by simp, rfl, rfl⟩

/-- C1 (amended): in both script variants a successful fresh fetch is
adopted as the data (never the cache) and overwrites the cache file; on a
failed fetch the script tests the truthiness of what readCache returned: a
truthy cached value is adopted silently, with the file untouched and no
error propagating, while a falsy one — no usable cache record, or a record
whose stored data is itself falsy (0, the empty string, false, null) —
makes the invocation fail with the underlying network error.  The two
failure branches split on that boolean, so together the cases are
exhaustive. -/
theorem C1_fetch_cache_truthiness : ∀ (file : FileState) (t0 t1 : Q) (fetch : FetchOutcome),
    (∀ fresh, fetch = .ok fresh →
      mainAdoptCurrent file t0 t1 fetch = .ok (fresh, writeCache fresh t1) ∧
      mainAdoptDaily file t0 t1 fetch = .ok (fresh, writeCache fresh t1)) ∧
    (∀ e, fetch = .err e → truthy (readCacheCurrent file t0) = true →
      mainAdoptCurrent file t0 t1 fetch = .ok (readCacheCurrent file t0, file)) ∧
    (∀ e, fetch = .err e → truthy (readCacheDaily file t0) = true →
      mainAdoptDaily file t0 t1 fetch = .ok (readCacheDaily file t0, file)) ∧
    (∀ e, fetch = .err e → truthy (readCacheCurrent file t0) = false →
      mainAdoptCurrent file t0 t1 fetch = .error e) ∧
    (∀ e, fetch = .err e → truthy (readCacheDaily file t0) = false →
      mainAdoptDaily file t0 t1 fetch = .error e) := by
  intro file t0 t1 fetch
  refine ⟨?_, ?_, ?_, ?_, ?_⟩
  · rintro fresh rfl
    exact ⟨rfl, rfl⟩
  · rintro e rfl h
    simp only [mainAdoptCurrent, mainAdopt, readCacheCurrent] at h ⊢
    simp [h]
  · rintro e rfl h
    simp only [mainAdoptDaily, mainAdopt, readCacheDaily] at h ⊢
    simp [h]
  · rintro e rfl h
    simp only [mainAdoptCurrent, mainAdopt, readCacheCurrent] at h ⊢
    simp [h]
  · rintro e rfl h
    simp only [mainAdoptDaily, mainAdopt, readCacheDaily] at h ⊢
    simp [h]

/-- Witness for C1 (amended): a fetched sample overrides and persists over
a warm cache; with a failing fetch, a truthy record written one minute ago
is adopted without error in both variants; a missing cache file propagates
the error in both variants; and the falsy-data record of the
counterexample propagates the error through the same truthy-false branch. -/
theorem C1_fetch_cache_truthiness_witness :
    (mainAdoptCurrent (writeCache (.str "old") (Q.ofInt 60000)) (Q.ofInt 120000)
        (Q.ofInt 120000) (.ok (.str "new")) =
      .ok (.str "new", writeCache (.str "new") (Q.ofInt 120000))) ∧
    (mainAdoptCurrent (writeCache (.str "old") (Q.ofInt 60000)) (Q.ofInt 120000)
        (Q.ofInt 120000) (.err "HTTP 500") =
      .ok (readCacheCurrent (writeCache (.str "old") (Q.ofInt 60000)) (Q.ofInt 120000),
        writeCache (.str "old") (Q.ofInt 60000))) ∧
    (mainAdoptDaily (writeCache (.str "old") (Q.ofInt 60000)) (Q.ofInt 120000)
        (Q.ofInt 120000) (.err "HTTP 500") =
      .ok (readCacheDaily (writeCache (.str "old") (Q.ofInt 60000)) (Q.ofInt 120000),
        writeCache (.str "old") (Q.ofInt 60000))) ∧
    (mainAdoptCurrent .missing (Q.ofInt 120000) (Q.ofInt 120000) (.err "timeout") =
      .error "timeout") ∧
    (mainAdoptDaily .missing (Q.ofInt 120000) (Q.ofInt 120000) (.err "timeout") =
      .error "timeout") ∧
    (mainAdoptCurrent (writeCache (.num ⟨0, 0⟩) (Q.ofInt 60000)) (Q.ofInt 120000)
      (Q.ofInt 120000) (.err "timeout") = .error "timeout") :=
  ⟨((C1_fetch_cache_truthiness _ _ _ _).1 (.str "new") rfl).1,
   (C1_fetch_cache_truthiness _ _ _ _).2.1 "HTTP 500" rfl (by rfl),
   (C1_fetch_cache_truthiness _ _ _ _).2.2.1 "HTTP 500" rfl (by rfl),
   (C1_fetch_cache_truthiness _ _ _ _).2.2.2.1 "timeout" rfl (by rfl),
   (C1_fetch_cache_truthiness _ _ _ _).2.2.2.2 "timeout" rfl (by rfl),
   (C1_fetch_cache_truthiness _ _ _ _).2.2.2.1 "timeout" rfl (by rfl)⟩

/-- C2 counterexample: a cache record whose timestamp field is a (truthy)
empty object has no numeric age at all, so no age of at most the TTL
exists; the claim then requires the absent result, but readCache returns
the stored data, because the age evaluates to NaN and NaN > CACHE_MIN is
false.  The second conjunct records that the timestamp has no numeric
value. -/
theorem C2_readCache_counterexample :
    readCache CACHE_MIN_current
        (.parsed (.obj [("timestamp", .obj []), ("data", .str "D")]))
        (Q.ofInt 1000000000) = .str "D" ∧
    jsToNum (.obj []) = none :=
  ⟨rfl, rfl⟩

/-- C2 (amended): readCache returns null for a missing file, unparsable
content, a parse result whose timestamp read throws, or a falsy timestamp;
for a truthy timestamp with numeric value t it returns null exactly when
(now - t) / 60000 exceeds the TTL and the stored data field otherwise; and
for a truthy timestamp with no numeric value (age NaN) the expiry test is
false and the stored data field is returned as well.  Totality of the
definition is the never-raises part of the claim. -/
theorem C2_readCache_contract : ∀ (c : Q) (file : FileState) (now : Q),
    (file = .missing → readCache c file now = .null) ∧
    (file = .invalid → readCache c file now = .null) ∧
    (∀ root, file = .parsed root → jsGetProp root "timestamp" = .error () →
      readCache c file now = .null) ∧
    (∀ root ts, file = .parsed root → jsGetProp root "timestamp" = .ok ts →
      truthy ts = false → readCache c file now = .null) ∧
    (∀ root ts t, file = .parsed root → jsGetProp root "timestamp" = .ok ts →
      truthy ts = true → jsToNum ts = some t →
      Q.lt c ((now.sub t).div (Q.ofInt 60000)) = true →
      readCache c file now = .null) ∧
    (∀ root ts t, file = .parsed root → jsGetProp root "timestamp" = .ok ts →
      truthy ts = true → jsToNum ts = some t →
      Q.lt c ((now.sub t).div (Q.ofInt 60000)) = false →
      readCache c file now = getProp root "data") ∧
    (∀ root ts, file = .parsed root → jsGetProp root "timestamp" = .ok ts →
      truthy ts = true → jsToNum ts = none →
      readCache c file now = getProp root "data") := by
  intro c file now
  refine ⟨?_, ?_, ?_, ?_, ?_, ?_, ?_⟩
  · rintro rfl; rfl
  · rintro rfl; rfl
  · rintro root rfl hts
    simp [readCache, hts]
  · rintro root ts rfl hts htr
    simp [readCache, hts, htr]
  · rintro root ts t rfl hts htr hnum hlt
    simp [readCache, hts, htr, hnum, hlt]
  · rintro root ts t rfl hts htr hnum hlt
    simp [readCache, hts, htr, hnum, hlt]
  · rintro root ts rfl hts htr hnum
    simp [readCache, hts, htr, hnum]

/-- Witness for C2: on a record written at minute 1, the 5-minute variant
returns the data when read at minute 2 and null when read at minute 10;
null for a missing file, unparsable content, a null parse result, and a
record without a timestamp. -/
theorem C2_readCache_contract_witness :
    (readCache CACHE_MIN_current
        (.parsed (.obj [("timestamp", .num (Q.ofInt 60000)), ("data", .str "D")]))
        (Q.ofInt 120000) = .str "D") ∧
    (readCache CACHE_MIN_current
        (.parsed (.obj [("timestamp", .num (Q.ofInt 60000)), ("data", .str "D")]))
        (Q.ofInt 600000) = .null) ∧
    (readCache CACHE_MIN_daily .missing (Q.ofInt 0) = .null) ∧
    (readCache CACHE_MIN_daily .invalid (Q.ofInt 0) = .null) ∧
    (readCache CACHE_MIN_current (.parsed .null) (Q.ofInt 0) = .null) ∧
    (readCache CACHE_MIN_current (.parsed (.obj [("data", .str "D")])) (Q.ofInt 0) = .null) :=
  ⟨by
    have h := (C2_readCache_contract CACHE_MIN_current
      (.parsed (.obj [("timestamp", .num (Q.ofInt 60000)), ("data", .str "D")]))
      (Q.ofInt 120000)).2.2.2.2.2.1
    exact (h _ _ (Q.ofInt 60000) rfl rfl rfl rfl (by rfl)).trans rfl,
   by
    have h := (C2_readCache_contract CACHE_MIN_current
      (.parsed (.obj [("timestamp", .num (Q.ofInt 60000)), ("data", .str "D")]))
      (Q.ofInt 600000)).2.2.2.2.1
    exact h _ _ (Q.ofInt 60000) rfl rfl rfl rfl (by rfl),
   (C2_readCache_contract _ _ _).1 rfl,
   (C2_readCache_contract _ _ _).2.1 rfl,
   (C2_readCache_contract _ _ _).2.2.1 .null rfl rfl,
   (C2_readCache_contract _ _ _).2.2.2.1 _ .null rfl rfl rfl⟩

/-- C8: writing any JSON-serializable data at a nonzero time tW and reading
the single record file back at any time tR whose elapsed span does not
exceed the TTL returns exactly the value that was written (byte equivalence
of the JSON round trip is identity on the parsed tree). -/
theorem C8_write_read_roundtrip : ∀ (data : JVal) (c tW tR : Q),
    jsonSerializable data = true → tW.n ≠ 0 →
    Q.lt c ((tR.sub tW).div (Q.ofInt 60000)) = false →
    readCache c (writeCache data tW) tR = data := by
  intro data c tW tR _ hn hlt
  simp [readCache, writeCache, jsGetProp, getProp, getKey, lookupField, truthy,
    jsToNum, hn, hlt]

/-- Witness for C8: a small serializable payload written at minute 1 and
read back at minute 3 under both variants' TTLs. -/
theorem C8_write_read_roundtrip_witness :
    readCache CACHE_MIN_current
        (writeCache (.obj [("temperature", .num ⟨137, 9⟩)]) (Q.ofInt 60000))
        (Q.ofInt 180000) = .obj [("temperature", .num ⟨137, 9⟩)] ∧
    readCache CACHE_MIN_daily
        (writeCache (.obj [("forecastDays", .arr [.null])]) (Q.ofInt 60000))
        (Q.ofInt 180000) = .obj [("forecastDays", .arr [.null])] :=
  ⟨C8_write_read_roundtrip _ _ _ _ (by simp [jsonSerializable]) (by decide) (by rfl),
   C8_write_read_roundtrip _ _ _ _ (by simp [jsonSerializable]) (by decide) (by rfl)⟩

/-- C9: the safe getter returns the value at a dotted path whenever every
key along the split path exists and every value read along it is non-null,
and the caller-supplied fallback (null by default) otherwise; it is a total
function, so no input can make it raise. -/
theorem C9_safe_getter : ∀ (root : JVal) (path : String) (fb : JVal),
    (∀ v, resolvePath root (jsSplitDot path) = some v → g root path fb = v) ∧
    (resolvePath root (jsSplitDot path) = none → g root path fb = fb) := by
  intro root path fb
  constructor
  · intro v h
    rcases hks : jsSplitDot path with _ | ⟨k, ks⟩
    · exact absurd hks (jsSplitDot_ne_nil path)
    · rw [hks] at h
      have hfold := resolvePath_some_foldl h
      have hnn := resolvePath_cons_not_null h
      simp only [g, hks, hfold, hnn, Bool.false_eq_true, if_false]
  · intro h
    have hfold := resolvePath_none_foldl h
    simp only [g, hfold, isNullJ, if_true]

/-- Witness for C9: a full path into a wind object resolves to the nested
value; a path broken by a missing key and one broken by a null intermediate
both fall back. -/
theorem C9_safe_getter_witness :
    g (windJ (.num ⟨84, 9⟩) (.str "MILE_PER_HOUR") .null) "speed.value" .null
      = .num ⟨84, 9⟩ ∧
    g (.obj [("a", .num ⟨1, 0⟩)]) "wind.speed.value" .null = .null ∧
    g (.obj [("wind", .null)]) "wind.speed" (.str "FB") = .str "FB" :=
  ⟨(C9_safe_getter _ _ _).1 _ rfl,
   (C9_safe_getter _ _ _).2 rfl,
   (C9_safe_getter _ _ _).2 rfl⟩

/-- C10: whenever the adopted forecast payload has no forecastDays key, has
it mapped to the empty array, or has it mapped to anything that is not an
array, buildWidget totally computes the No-forecast-data placeholder and
touches no per-day record on the way. -/
theorem C10_empty_forecast_placeholder :
    ∀ (locale : JVal → JVal → JVal → String) (f : JVal),
    (getKey f "forecastDays" = none ∨
     getKey f "forecastDays" = some (.arr []) ∨
     (∀ xs, getKey f "forecastDays" ≠ some (.arr xs))) →
    buildWidgetDaily locale f = .noData := by
  intro locale f h
  have hsplit : jsSplitDot "forecastDays" = ["forecastDays"] := rfl
  rcases hk : getKey f "forecastDays" with _ | u
  · have hg : g f "forecastDays" (.arr []) = .arr [] := by
      by_cases ht : truthy f = true <;>
        simp [g, hsplit, gStep, ht, hk, isNullJ]
    simp [buildWidgetDaily, hg]
  · have ht : truthy f = true := getKey_truthy hk
    have hg : g f "forecastDays" (.arr []) =
        (if isNullJ u = true then .arr [] else u) := by
      simp [g, hsplit, gStep, ht, hk]
    rcases h with h1 | h2 | h3
    · rw [hk] at h1; exact absurd h1 (by simp)
    · rw [hk] at h2
      have : u = .arr [] := by simpa using h2
      subst this
      simp [buildWidgetDaily, hg, isNullJ]
    · by_cases hu : isNullJ u = true
      · simp [buildWidgetDaily, hg, hu]
      · rw [if_neg hu] at hg
        cases u with
        | arr xs => exact absurd (hk.trans (by rfl)) (by simpa using h3 xs)
        | null => simp [isNullJ] at hu
        | bool b => simp [buildWidgetDaily, hg]
        | num q => simp [buildWidgetDaily, hg]
        | nan => simp [buildWidgetDaily, hg]
        | str s => simp [buildWidgetDaily, hg]
        | obj fs => simp [buildWidgetDaily, hg]

/-- Witness for C10: a payload with no forecastDays key, one with an empty
array, and one with a string in place of the array all yield the
placeholder. -/
theorem C10_empty_forecast_placeholder_witness :
    buildWidgetDaily (fun _ _ _ => "") (.obj []) = .noData ∧
    buildWidgetDaily (fun _ _ _ => "") (.obj [("forecastDays", .arr [])]) = .noData ∧
    buildWidgetDaily (fun _ _ _ => "") (.obj [("forecastDays", .str "soon")]) = .noData :=
  ⟨C10_empty_forecast_placeholder _ _ (Or.inl rfl),
   C10_empty_forecast_placeholder _ _ (Or.inr (Or.inl rfl)),
   C10_empty_forecast_placeholder _ _
     (Or.inr (Or.inr (by intro xs h; simp [getKey, lookupField] at h)))⟩

/-- C3 counterexample: the empty string is a string input, and the claim's
first rule says a string input is returned verbatim; but the code tests
truthiness before anything else, and the empty string is falsy, so the
result is absent instead of the verbatim empty string. -/
theorem C3_normalize_counterexample :
    normalizeConditionText (.str "") = none := rfl

/-- Reading any property of a scalar yields undefined (null in the model). -/
theorem getProp_null (k : String) : getProp .null k = .null := rfl

theorem getProp_bool (b : Bool) (k : String) : getProp (.bool b) k = .null := rfl

theorem getProp_num (q : Q) (k : String) : getProp (.num q) k = .null := rfl

theorem getProp_nan (k : String) : getProp .nan k = .null := rfl

theorem getProp_str (s k : String) : getProp (.str s) k = .null := rfl

theorem getProp_arr {xs : List JVal} {k : String} (h : natKey k = none) :
    getProp (.arr xs) k = .null := by
  simp [getProp, getKey, h]

theorem getProp_obj (fs : List (String × JVal)) (k : String) :
    getProp (.obj fs) k = (lookupField fs k).getD .null := rfl

/-- A match that distinguishes only the string constructor falls through to
its default branch on every non-string value. -/
theorem match_notStr {a : Sort u} {f : String → a} {dflt : a} {w : JVal}
    (hw : isStrJ w = false) :
    (match (motive := JVal → a) w with
     | JVal.str s => f s
     | _ => dflt) = dflt := by
  cases w with
  | str s => exact absurd hw (by simp [isStrJ])
  | null => rfl
  | bool b => rfl
  | num q => rfl
  | nan => rfl
  | arr xs => rfl
  | obj fs => rfl

/-- Structural form of normalizeConditionText on an object: the three
fallbacks read the description field, its text probe, and the type field in
order. -/
theorem normalize_steps (fs : List (String × JVal)) :
    normalizeConditionText (.obj fs) =
      (match getProp (.obj fs) "description" with
       | JVal.str s => some s
       | _ =>
         match descTextProbe (getProp (.obj fs) "description") with
         | JVal.str t => some t
         | _ =>
           match getProp (.obj fs) "type" with
           | JVal.str ty => some ty
           | _ => none) := rfl

/-- C3 (amended): a falsy raw condition (absent, null, the empty string, 0,
false, NaN) resolves to absent; otherwise the ordered rules apply exactly
as claimed: a (necessarily non-empty) string is returned verbatim; else a
string description field is returned; else a truthy description whose text
field is a string yields that text; else a string type field is returned;
else the result is absent. -/
theorem C3_normalize_rules :
    (∀ v, truthy v = false → normalizeConditionText v = none) ∧
    (∀ s, s ≠ "" → normalizeConditionText (.str s) = some s) ∧
    (∀ v s, truthy v = true → isStrJ v = false →
      getProp v "description" = .str s → normalizeConditionText v = some s) ∧
    (∀ v d t, truthy v = true → isStrJ v = false →
      getProp v "description" = d → isStrJ d = false → truthy d = true →
      getProp d "text" = .str t → normalizeConditionText v = some t) ∧
    (∀ v d ty, truthy v = true → isStrJ v = false →
      getProp v "description" = d → isStrJ d = false →
      isStrJ (descTextProbe d) = false →
      getProp v "type" = .str ty → normalizeConditionText v = some ty) ∧
    (∀ v d, truthy v = true → isStrJ v = false →
      getProp v "description" = d → isStrJ d = false →
      isStrJ (descTextProbe d) = false →
      isStrJ (getProp v "type") = false → normalizeConditionText v = none) := by
  have hdk : natKey "description" = none := rfl
  have htk : natKey "text" = none := rfl
  have hyk : natKey "type" = none := rfl
  refine ⟨?_, ?_, ?_, ?_, ?_, ?_⟩
  · intro v h
    simp [normalizeConditionText, h]
  · intro s hs
    simp [normalizeConditionText, truthy, hs]
  · intro v s ht hstr hdesc
    cases v with
    | null => simp [truthy] at ht
    | nan => simp [truthy] at ht
    | str s2 => simp [isStrJ] at hstr
    | bool b => rw [getProp_bool] at hdesc; exact absurd hdesc (by simp)
    | num q => rw [getProp_num] at hdesc; exact absurd hdesc (by simp)
    | arr xs => rw [getProp_arr hdk] at hdesc; exact absurd hdesc (by simp)
    | obj fs => rw [normalize_steps, hdesc]
  · intro v d t ht hstr hdesc hdstr hdtr htext
    cases v with
    | null => simp [truthy] at ht
    | nan => simp [truthy] at ht
    | str s2 => simp [isStrJ] at hstr
    | bool b =>
      rw [getProp_bool] at hdesc; rw [← hdesc] at hdtr; simp [truthy] at hdtr
    | num q =>
      rw [getProp_num] at hdesc; rw [← hdesc] at hdtr; simp [truthy] at hdtr
    | arr xs =>
      rw [getProp_arr hdk] at hdesc; rw [← hdesc] at hdtr; simp [truthy] at hdtr
    | obj fs =>
      have hp : descTextProbe d = .str t := by
        simp [descTextProbe, hdtr, htext]
      rw [normalize_steps, hdesc, match_notStr hdstr, hp]
  · intro v d ty ht hstr hdesc hdstr hprobe htype
    cases v with
    | null => simp [truthy] at ht
    | nan => simp [truthy] at ht
    | str s2 => simp [isStrJ] at hstr
    | bool b => rw [getProp_bool b "type"] at htype; exact absurd htype (by simp)
    | num q => rw [getProp_num] at htype; exact absurd htype (by simp)
    | arr xs => rw [getProp_arr hyk] at htype; exact absurd htype (by simp)
    | obj fs =>
      rw [normalize_steps, hdesc, match_notStr hdstr, match_notStr hprobe, htype]
  · intro v d ht hstr hdesc hdstr hprobe htype
    cases v with
    | null => simp [truthy] at ht
    | nan => simp [truthy] at ht
    | str s2 => simp [isStrJ] at hstr
    | bool b =>
      cases b with
      | false => simp [truthy] at ht
      | true => rfl
    | num q =>
      have ht2 : (q.n = 0) = False := by
        simpa [truthy, decide_eq_true_eq] using ht
      simp [normalizeConditionText, truthy, ht2, getProp_num, descTextProbe]
    | arr xs =>
      simp [normalizeConditionText, truthy, descTextProbe, getProp_arr hdk,
        getProp_arr htk, getProp_arr hyk]
    | obj fs =>
      rw [normalize_steps, hdesc, match_notStr hdstr, match_notStr hprobe,
        match_notStr htype]

/-- Witness for C3: the claim's four examples land in the four rules, plus
the falsy rule at null and the string-description rule. -/
theorem C3_normalize_rules_witness :
    normalizeConditionText .null = none ∧
    normalizeConditionText (.str "Sunny") = some "Sunny" ∧
    normalizeConditionText (.obj [("description", .str "Mist")]) = some "Mist" ∧
    normalizeConditionText (.obj [("description", .obj [("text", .str "Cloudy")])])
      = some "Cloudy" ∧
    normalizeConditionText (.obj [("type", .str "RAIN")]) = some "RAIN" ∧
    normalizeConditionText (.obj []) = none :=
  ⟨C3_normalize_rules.1 .null rfl,
   C3_normalize_rules.2.1 "Sunny" (by simp),
   C3_normalize_rules.2.2.1 _ "Mist" rfl rfl rfl,
   C3_normalize_rules.2.2.2.1 _ (.obj [("text", .str "Cloudy")]) "Cloudy"
     rfl rfl rfl rfl rfl rfl,
   C3_normalize_rules.2.2.2.2.1 _ .null "RAIN" rfl rfl rfl rfl rfl rfl,
   C3_normalize_rules.2.2.2.2.2 _ .null rfl rfl rfl rfl rfl rfl⟩

/-- C4 counterexample: a forecast condition that carries both an unknown
type (BREEZY, matching no typed rule) and a rainy description.  The claim
says the typed rules decide alone whenever a type is present, which would
give the clear-day fallback here (second conjunct, the claim's rule
modelled as specPickSymbolTypedOnly); the code instead falls through to the
text rules and picks the rain icon (first conjunct). -/
theorem C4_pickSymbol_counterexample :
    pickSymbolDaily (.obj [("type", .str "BREEZY"), ("description", .str "heavy rain")])
      (.bool true) = "cloud.rain.fill" ∧
    specPickSymbolTypedOnly
      (.obj [("type", .str "BREEZY"), ("description", .str "heavy rain")])
      (.bool true) = "sun.max.fill" ∧
    ("cloud.rain.fill" : String) ≠ "sun.max.fill" :=
  ⟨rfl, rfl, by simp⟩

/-- C4 (amended): the forecast pickSymbol is exactly the two-phase cascade:
the typed rules run first on the uppercased type and decide alone when any
of them matches; whenever no typed rule matches — because the type is
absent or because it is an unknown enum — the text rules on the lowercased
normalized description are consulted; the clear-sky day/night default
closes the cascade, and the two phases are never merged. -/
theorem C4_pickSymbol_two_phase : ∀ (wc d : JVal),
    pickSymbolDaily wc d =
      match typedSymbol (strUpper (getConditionType wc)) (truthy d) with
      | some s => s
      | none =>
        match textSymbolDaily (strLower ((normalizeConditionText wc).getD ""))
            (truthy d) with
        | some s => s
        | none => if truthy d then "sun.max.fill" else "moon.stars.fill" := by
  intro wc d
  simp only [pickSymbolDaily, typedSymbol, textSymbolDaily]
  generalize strUpper (getConditionType wc) = T
  generalize strLower ((normalizeConditionText wc).getD "") = D
  generalize truthy d = day
  by_cases h1 : (strContains T "THUNDER" || strContains T "STORM") = true
  · simp [h1]
  by_cases h2 : strContains T "SNOW" = true
  · simp [h1, h2]
  by_cases h3 : strContains T "RAIN" = true
  · simp [h1, h2, h3]
  by_cases h4 : strContains T "SHOWERS" = true
  · simp [h1, h2, h3, h4]
  by_cases h5 : strContains T "FOG" = true
  · simp [h1, h2, h3, h4, h5]
  by_cases h6 : (strContains T "HAZE" || strContains T "MIST") = true
  · simp [h1, h2, h3, h4, h5, h6]
  by_cases h7 : strContains T "OVERCAST" = true
  · simp [h1, h2, h3, h4, h5, h6, h7]
  by_cases h8 : (strContains T "MOSTLY_CLOUDY" || strContains T "CLOUDY") = true
  · simp [h1, h2, h3, h4, h5, h6, h7, h8]
  by_cases h9 : strContains T "PARTLY_CLOUDY" = true
  · simp [h1, h2, h3, h4, h5, h6, h7, h8, h9]
  by_cases h10 : (strContains T "CLEAR" || strContains T "SUNNY") = true
  · simp [h1, h2, h3, h4, h5, h6, h7, h8, h9, h10]
  by_cases g1 : (strContains D "storm" || strContains D "thunder") = true
  · simp [h1, h2, h3, h4, h5, h6, h7, h8, h9, h10, g1]
  by_cases g2 : strContains D "snow" = true
  · simp [h1, h2, h3, h4, h5, h6, h7, h8, h9, h10, g1, g2]
  by_cases g3 : strContains D "rain" = true
  · simp [h1, h2, h3, h4, h5, h6, h7, h8, h9, h10, g1, g2, g3]
  by_cases g4 : (strContains D "fog" || strContains D "mist" || strContains D "haze") = true
  · simp [h1, h2, h3, h4, h5, h6, h7, h8, h9, h10, g1, g2, g3, g4]
  by_cases g5 : strContains D "cloud" = true
  · simp [h1, h2, h3, h4, h5, h6, h7, h8, h9, h10, g1, g2, g3, g4, g5]
  by_cases g6 : (strContains D "clear" || strContains D "sunny") = true
  · simp [h1, h2, h3, h4, h5, h6, h7, h8, h9, h10, g1, g2, g3, g4, g5, g6]
  simp [h1, h2, h3, h4, h5, h6, h7, h8, h9, h10, g1, g2, g3, g4, g5, g6]

/-- C5: a THUNDERSTORM type maps to the stormy icon in both variants
whatever the day/night flag is; the text light rain showers maps to the
rain icon in both variants; and whenever no substring rule matches the
condition (in particular for an empty one), both variants fall back to the
clear-sky icon, day variant for a truthy isDaytime and night variant
otherwise. -/
theorem C5_pickSymbol_cases :
    (∀ d, pickSymbolCurrent (.obj [("type", .str "THUNDERSTORM")]) d
        = "cloud.bolt.rain.fill" ∧
      pickSymbolDaily (.obj [("type", .str "THUNDERSTORM")]) d
        = "cloud.bolt.rain.fill") ∧
    (∀ d, pickSymbolCurrent (.str "light rain showers") d = "cloud.rain.fill" ∧
      pickSymbolDaily (.str "light rain showers") d = "cloud.rain.fill") ∧
    (∀ wc d, (∀ nd ∈ currentTextNeedles,
        strContains (strLower ((normalizeConditionText wc).getD "")) nd = false) →
      pickSymbolCurrent wc d
        = (if truthy d = true then "sun.max.fill" else "moon.stars.fill")) ∧
    (∀ wc d, (∀ nd ∈ dailyTypedNeedles,
        strContains (strUpper (getConditionType wc)) nd = false) →
      (∀ nd ∈ dailyTextNeedles,
        strContains (strLower ((normalizeConditionText wc).getD "")) nd = false) →
      pickSymbolDaily wc d
        = (if truthy d = true then "sun.max.fill" else "moon.stars.fill")) := by
  refine ⟨fun d => ⟨rfl, rfl⟩, fun d => ⟨rfl, rfl⟩, ?_, ?_⟩
  · intro wc d h
    have c1 := h "thunder" (by decide)
    have c2 := h "storm" (by decide)
    have c3 := h "snow" (by decide)
    have c4 := h "sleet" (by decide)
    have c5 := h "rain" (by decide)
    have c6 := h "drizzle" (by decide)
    have c7 := h "fog" (by decide)
    have c8 := h "mist" (by decide)
    have c9 := h "haze" (by decide)
    have c10 := h "overcast" (by decide)
    have c11 := h "cloud" (by decide)
    have c12 := h "clear" (by decide)
    have c13 := h "sunny" (by decide)
    simp [pickSymbolCurrent, c1, c2, c3, c4, c5, c6, c7, c8, c9, c10, c11, c12, c13]
  · intro wc d ht hx
    have t1 := ht "THUNDER" (by decide)
    have t2 := ht "STORM" (by decide)
    have t3 := ht "SNOW" (by decide)
    have t4 := ht "RAIN" (by decide)
    have t5 := ht "SHOWERS" (by decide)
    have t6 := ht "FOG" (by decide)
    have t7 := ht "HAZE" (by decide)
    have t8 := ht "MIST" (by decide)
    have t9 := ht "OVERCAST" (by decide)
    have t10 := ht "MOSTLY_CLOUDY" (by decide)
    have t11 := ht "CLOUDY" (by decide)
    have t12 := ht "PARTLY_CLOUDY" (by decide)
    have t13 := ht "CLEAR" (by decide)
    have t14 := ht "SUNNY" (by decide)
    have x1 := hx "storm" (by decide)
    have x2 := hx "thunder" (by decide)
    have x3 := hx "snow" (by decide)
    have x4 := hx "rain" (by decide)
    have x5 := hx "fog" (by decide)
    have x6 := hx "mist" (by decide)
    have x7 := hx "haze" (by decide)
    have x8 := hx "cloud" (by decide)
    have x9 := hx "clear" (by decide)
    have x10 := hx "sunny" (by decide)
    simp [pickSymbolDaily, t1, t2, t3, t4, t5, t6, t7, t8, t9, t10, t11, t12,
      t13, t14, x1, x2, x3, x4, x5, x6, x7, x8, x9, x10]

/-- Witness for C5: the rule cases at the claim's concrete inputs, with the
fallback instantiated at the empty object (an empty condition) for both
day values. -/
theorem C5_pickSymbol_cases_witness :
    pickSymbolCurrent (.obj [("type", .str "THUNDERSTORM")]) (.bool false)
      = "cloud.bolt.rain.fill" ∧
    pickSymbolDaily (.str "light rain showers") (.bool true) = "cloud.rain.fill" ∧
    pickSymbolCurrent (.obj []) (.bool true) = "sun.max.fill" ∧
    pickSymbolDaily (.obj []) (.bool false) = "moon.stars.fill" :=
  ⟨(C5_pickSymbol_cases.1 (.bool false)).1,
   (C5_pickSymbol_cases.2.1 (.bool true)).2,
   (C5_pickSymbol_cases.2.2.1 (.obj []) (.bool true) (by decide)).trans (by rfl),
   (C5_pickSymbol_cases.2.2.2 (.obj []) (.bool false) (by decide) (by decide)).trans
     (by rfl)⟩

theorem Q.den_pos (q : Q) : 0 < q.den := by
  simp only [Q.den]
  omega

theorem Q.floor_nonneg {q : Q} (h : 0 ≤ q.n) : 0 ≤ q.floor :=
  Int.ediv_nonneg h (le_of_lt (Q.den_pos q))

theorem mkPos_den {n d : ℤ} (h : 0 < d) : (Q.mkPos n d).den = d := by
  simp only [Q.mkPos, Q.den]
  omega

theorem trunc_eq_floor_of_nonneg (q : Q) (h : 0 ≤ q.n) : q.trunc = q.floor := by
  unfold Q.trunc
  rw [if_neg (by omega)]

/-- On nonnegative degrees the code's sign-preserving remainder by 360
agrees with the mathematical modulus of the specification's formula. -/
theorem jsRem360_eq (d : Q) (hn : 0 ≤ d.n) :
    jsRem d (Q.ofInt 360) = mathModQ d (Q.ofInt 360) := by
  unfold jsRem mathModQ
  rw [trunc_eq_floor_of_nonneg (d.div (Q.ofInt 360))
    (by
      have h2 : (d.div (Q.ofInt 360)).n = d.n * 1 := rfl
      omega)]

/-- The mathematical modulus by 360 is nonnegative for every input. -/
theorem mathMod360_n_nonneg (d : Q) : 0 ≤ (mathModQ d (Q.ofInt 360)).n := by
  have hden : (d.div (Q.ofInt 360)).den = d.den * 360 := by
    have h0 : d.div (Q.ofInt 360) = Q.mkPos (d.n * 1) (d.den * 360) := rfl
    rw [h0, mkPos_den (mul_pos (Q.den_pos d) (by norm_num))]
  have hfl : (d.div (Q.ofInt 360)).floor = d.n * 1 / (d.den * 360) := by
    unfold Q.floor
    rw [hden]
    rfl
  have hmn : (mathModQ d (Q.ofInt 360)).n
      = d.n * 1 - 360 * (d.div (Q.ofInt 360)).floor * d.den := rfl
  rw [hmn, hfl]
  have hD : (0:ℤ) < d.den * 360 := mul_pos (Q.den_pos d) (by norm_num)
  have h1 := Int.ediv_add_emod (d.n * 1) (d.den * 360)
  have h2 := Int.emod_nonneg (d.n * 1) (by omega : d.den * 360 ≠ 0)
  have h3 : 360 * (d.n * 1 / (d.den * 360)) * d.den
      = d.den * 360 * (d.n * 1 / (d.den * 360)) := by ring
  linarith

/-- The rounded sixteenth of the modulus is nonnegative. -/
theorem roundSixteenth_nonneg (d : Q) :
    0 ≤ jsRound ((mathModQ d (Q.ofInt 360)).div ⟨45, 1⟩) := by
  have hm := mathMod360_n_nonneg d
  have hq2 : ((mathModQ d (Q.ofInt 360)).div ⟨45, 1⟩).n
      = (mathModQ d (Q.ofInt 360)).n * 2 := rfl
  apply Q.floor_nonneg
  have ha : ((((mathModQ d (Q.ofInt 360)).div ⟨45, 1⟩)).add ⟨1, 1⟩).n
      = ((mathModQ d (Q.ofInt 360)).div ⟨45, 1⟩).n * 2
        + 1 * ((mathModQ d (Q.ofInt 360)).div ⟨45, 1⟩).den := rfl
  have hdp := Q.den_pos ((mathModQ d (Q.ofInt 360)).div ⟨45, 1⟩)
  rw [ha, hq2]
  omega

/-- On nonnegative degrees, degToDir computes exactly the specification's
compass formula. -/
theorem degToDir_eq_spec (d : Q) (hn : 0 ≤ d.n) :
    degToDir (.num d) = specCompassLabel d := by
  have hr := roundSixteenth_nonneg d
  unfold degToDir
  rw [if_neg (by simp [isNullJ])]
  show (match jsToNum (.num d) with
    | none => ""
    | some d =>
      let i := jsRemInt (jsRound ((jsRem d (Q.ofInt 360)).div ⟨45, 1⟩)) 16
      if i < 0 then "" else (dirs16[i.toNat]?).getD "") = specCompassLabel d
  have hj : jsToNum (.num d) = some d := rfl
  rw [hj]
  simp only
  rw [jsRem360_eq d hn]
  unfold jsRemInt
  rw [if_pos hr]
  rw [if_neg (by
    have := Int.emod_nonneg (jsRound ((mathModQ d (Q.ofInt 360)).div ⟨45, 1⟩))
      (by norm_num : (16:ℤ) ≠ 0)
    omega)]
  rfl

/-- The specification's compass label is one of the sixteen direction
strings and in particular never empty. -/
theorem specCompassLabel_ne_empty (d : Q) : specCompassLabel d ≠ "" := by
  unfold specCompassLabel
  have h1 := Int.emod_nonneg (jsRound ((mathModQ d (Q.ofInt 360)).div ⟨45, 1⟩))
    (by norm_num : (16:ℤ) ≠ 0)
  have h2 := Int.emod_lt_of_pos (jsRound ((mathModQ d (Q.ofInt 360)).div ⟨45, 1⟩))
    (by norm_num : (0:ℤ) < 16)
  have h16 : ((jsRound ((mathModQ d (Q.ofInt 360)).div ⟨45, 1⟩)) % 16).toNat < 16 := by
    omega
  have hall : ∀ k ∈ List.range 16, ((dirs16[k]?).getD "") ≠ "" := by decide
  exact hall _ (List.mem_range.mpr h16)

/-- C6 counterexample: at degrees -90 the claim's formula (with the usual
mathematical modulus) selects W, so the claim predicts the output
8 km/h W; but the code's sign-preserving remainder makes the index
negative, the array read yields undefined, and the direction suffix is
omitted: the actual output is 8 km/h. -/
theorem C6_fmtWind_counterexample :
    fmtWind (windJ (.num ⟨8, 0⟩) (.str "KILOMETERS_PER_HOUR") (.num ⟨-90, 0⟩))
      = "8 km/h" ∧
    specCompassLabel ⟨-90, 0⟩ = "W" ∧
    ("8 km/h" : String) ≠ "8 km/h W" :=
  ⟨rfl, rfl, by simp⟩

/-- C6 (amended): for a numeric speed value the output is the rounded
speed, the unit symbol (mph for MILE_PER_HOUR, m/s for METER_PER_SECOND,
km/h otherwise), and the compass suffix derived from direction.degrees; an
absent speed value gives the em-dash with nothing appended; on nonnegative
degrees the compass label is exactly the claimed formula
round((deg mod 360)/22.5) mod 16 into the 16-direction list and is always
appended; the suffix is omitted for absent or NaN degrees, and also for
negative degrees whenever JavaScript's sign-preserving remainder makes the
index negative. -/
theorem C6_fmtWind_rules :
    (∀ (q : Q) (u dv : JVal),
      fmtWind (windJ (.num q) u dv)
        = toString (jsRound q) ++ " " ++ windUnitSym u ++ dirSuffix (degToDir dv)) ∧
    (∀ (u dv : JVal), fmtWind (windJ .null u dv) = "—") ∧
    (∀ (d : Q), 0 ≤ d.n →
      degToDir (.num d) = specCompassLabel d ∧ specCompassLabel d ≠ "") ∧
    (degToDir .null = "" ∧ ∀ v, jsToNum v = none → degToDir v = "") ∧
    (∀ (d : Q), jsRemInt (jsRound ((jsRem d (Q.ofInt 360)).div ⟨45, 1⟩)) 16 < 0 →
      degToDir (.num d) = "") := by
  refine ⟨?_, ?_, ?_, ⟨rfl, ?_⟩, ?_⟩
  · intro q u dv
    have hval : g (windJ (.num q) u dv) "speed.value" = .num q := rfl
    have hunit : g (windJ (.num q) u dv) "speed.unit"
        = (if isNullJ u = true then .null else u) := rfl
    have hdir : g (windJ (.num q) u dv) "direction.degrees"
        = (if isNullJ dv = true then .null else dv) := rfl
    simp only [fmtWind, hval, hunit, hdir]
    by_cases hu : isNullJ u = true
    · have hu2 : u = JVal.null := by cases u <;> simp_all [isNullJ]
      subst hu2
      by_cases hv : isNullJ dv = true
      · have hv2 : dv = JVal.null := by cases dv <;> simp_all [isNullJ]
        subst hv2
        rfl
      · simp only [hv, Bool.false_eq_true, if_false]
        rfl
    · simp only [hu, Bool.false_eq_true, if_false]
      by_cases hv : isNullJ dv = true
      · have hv2 : dv = JVal.null := by cases dv <;> simp_all [isNullJ]
        subst hv2
        rfl
      · simp only [hv, Bool.false_eq_true, if_false]
        rfl
  · intro u dv
    rfl
  · intro d hn
    exact ⟨degToDir_eq_spec d hn, specCompassLabel_ne_empty d⟩
  · intro v hv
    unfold degToDir
    by_cases h : isNullJ v = true
    · rw [if_pos h]
    · rw [if_neg h, hv]
  · intro d h
    unfold degToDir
    rw [if_neg (by simp [isNullJ])]
    show (match jsToNum (.num d) with
      | none => ""
      | some d =>
        let i := jsRemInt (jsRound ((jsRem d (Q.ofInt 360)).div ⟨45, 1⟩)) 16
        if i < 0 then "" else (dirs16[i.toNat]?).getD "") = ""
    have hj : jsToNum (.num d) = some d := rfl
    rw [hj]
    simp only
    rw [if_pos h]

/-- Witness for C6: the claimed examples — speed 8.4 km/h at 335 degrees
renders 8 km/h NNW, an absent speed renders the em-dash — together with the
formula agreement at 335 degrees, the omission at NaN degrees, and the
omission at the negative index produced by -90 degrees. -/
theorem C6_fmtWind_rules_witness :
    fmtWind (windJ (.num ⟨42, 4⟩) (.str "KILOMETERS_PER_HOUR") (.num ⟨335, 0⟩))
      = "8 km/h NNW" ∧
    fmtWind (windJ .null (.str "KILOMETERS_PER_HOUR") .null) = "—" ∧
    (degToDir (.num ⟨335, 0⟩) = specCompassLabel ⟨335, 0⟩ ∧
      specCompassLabel ⟨335, 0⟩ ≠ "") ∧
    degToDir .nan = "" ∧
    degToDir (.num ⟨-90, 0⟩) = "" :=
  ⟨(C6_fmtWind_rules.1 ⟨42, 4⟩ (.str "KILOMETERS_PER_HOUR") (.num ⟨335, 0⟩)).trans
     (by rfl),
   C6_fmtWind_rules.2.1 (.str "KILOMETERS_PER_HOUR") .null,
   C6_fmtWind_rules.2.2.1 ⟨335, 0⟩ (by decide),
   C6_fmtWind_rules.2.2.2.1.2 .nan rfl,
   C6_fmtWind_rules.2.2.2.2 ⟨-90, 0⟩ (by decide)⟩

/-- C7: parseTempC converts FAHRENHEIT degrees by round((v - 32) * 5 / 9),
keeps CELSIUS degrees up to rounding, and maps absent degrees to null; the
gradients key on the resulting integer Celsius value with cold below 10,
mild from 10 through 23 and hot from 24 up, defaulting to cold for an
absent value — identically in both variants — and the current-conditions
variant alone overrides everything with the fixed night scheme whenever
isDaytime is falsy. -/
theorem C7_gradient_scheme :
    (∀ (q : Q),
      parseTempC (tempJ (.num q) (.str "FAHRENHEIT"))
        = .num (Q.ofInt (jsRound (((q.sub (Q.ofInt 32)).mul (Q.ofInt 5)).div
            (Q.ofInt 9)))) ∧
      parseTempC (tempJ (.num q) (.str "CELSIUS")) = .num (Q.ofInt (jsRound q))) ∧
    (∀ u, parseTempC (tempJ .null u) = .null) ∧
    (∀ z : ℤ, z < 10 →
      gradientForCurrent (.num (Q.ofInt z)) true = coldColors ∧
      gradientForDaily (.num (Q.ofInt z)) = coldColors) ∧
    (∀ z : ℤ, 10 ≤ z → z ≤ 23 →
      gradientForCurrent (.num (Q.ofInt z)) true = mildColors ∧
      gradientForDaily (.num (Q.ofInt z)) = mildColors) ∧
    (∀ z : ℤ, 24 ≤ z →
      gradientForCurrent (.num (Q.ofInt z)) true = hotColors ∧
      gradientForDaily (.num (Q.ofInt z)) = hotColors) ∧
    (gradientForCurrent .null true = coldColors ∧
      gradientForDaily .null = coldColors) ∧
    (∀ tc, gradientForCurrent tc false = nightColors) := by
  have hge : ∀ (z c : ℤ), jsGE (.num (Q.ofInt z)) c = decide (c ≤ z) := by
    intro z c
    simp [jsGE, jsToNum, Q.le, Q.ofInt, Q.den]
  refine ⟨fun q => ⟨rfl, rfl⟩, fun u => rfl, ?_, ?_, ?_, ⟨rfl, rfl⟩, fun tc => rfl⟩
  · intro z hz
    constructor <;>
      simp [gradientForCurrent, gradientForDaily, isNullJ, hge,
        show ¬((24:ℤ) ≤ z) by omega, show ¬((10:ℤ) ≤ z) by omega]
  · intro z hz1 hz2
    constructor <;>
      simp [gradientForCurrent, gradientForDaily, isNullJ, hge,
        show ¬((24:ℤ) ≤ z) by omega, show (10:ℤ) ≤ z by omega]
  · intro z hz
    constructor <;>
      simp [gradientForCurrent, gradientForDaily, isNullJ, hge,
        show (24:ℤ) ≤ z by omega]

/-- Witness for C7: the claimed example conversions (98.6 F is 37 C, 20 C
stays 20) and the claimed scheme samples: 5 cold, 15 mild, 30 hot, the
boundaries 10 mild and 24 hot, absent cold, and the night override at a hot
temperature. -/
theorem C7_gradient_scheme_witness :
    parseTempC (tempJ (.num ⟨493, 4⟩) (.str "FAHRENHEIT")) = .num (Q.ofInt 37) ∧
    parseTempC (tempJ (.num ⟨20, 0⟩) (.str "CELSIUS")) = .num (Q.ofInt 20) ∧
    parseTempC (tempJ .null (.str "CELSIUS")) = .null ∧
    gradientForCurrent (.num (Q.ofInt 5)) true = coldColors ∧
    gradientForCurrent (.num (Q.ofInt 15)) true = mildColors ∧
    gradientForCurrent (.num (Q.ofInt 30)) true = hotColors ∧
    gradientForDaily (.num (Q.ofInt 10)) = mildColors ∧
    gradientForDaily (.num (Q.ofInt 24)) = hotColors ∧
    gradientForDaily .null = coldColors ∧
    gradientForCurrent (.num (Q.ofInt 30)) false = nightColors :=
  ⟨(C7_gradient_scheme.1 ⟨493, 4⟩).1.trans (by rfl),
   (C7_gradient_scheme.1 ⟨20, 0⟩).2.trans (by rfl),
   C7_gradient_scheme.2.1 (.str "CELSIUS"),
   (C7_gradient_scheme.2.2.1 5 (by omega)).1,
   (C7_gradient_scheme.2.2.2.1 15 (by omega) (by omega)).1,
   (C7_gradient_scheme.2.2.2.2.1 30 (by omega)).1,
   (C7_gradient_scheme.2.2.2.1 10 (by omega) (by omega)).2,
   (C7_gradient_scheme.2.2.2.2.1 24 (by omega)).2,
   C7_gradient_scheme.2.2.2.2.2.1.2,
   C7_gradient_scheme.2.2.2.2.2.2 (.num (Q.ofInt 30))⟩

end GW
